import Mathlib

/-!
The TeensyROM main menu table (`Source/TeensyROM/MainMenuItems.h`)

The header defines one object, the static table

    StructMenuItem ROMMenu[] = { ... };

whose initializer is a flat, comma-separated list of scalar initializers,
written one table row per source line, with three rows commented out.

The development embeds the initializer list line by line (`ROMMenuSource`),
removes the commented-out lines (`initializers`), groups the remaining flat
list into members of consecutive structs the way brace elision does
(`groupMembers`), and types every group as a `StructMenuItem` (`elabItem`).
The table `ROMMenu` is the result, and the properties below are proved of it.
-/

namespace TeensyROM

/-! ## Data model -/

/-- Modelled from the spec: the enumeration of image kinds. Its declaration is
not in `MainMenuItems.h`; the spec lists the variants
{Crt, Prg, Bin8kHi, Bin8kLo, Bin16k, None} and the table uses the enumerator
names `rtFileCrt`, `rtFilePrg`, `rtBin8kHi`, `rtBin8kLo`, `rtBin16k`, `rtNone`. -/
inductive RegMenuTypes
  | rtFileCrt
  | rtFilePrg
  | rtBin8kHi
  | rtBin8kLo
  | rtBin16k
  | rtNone
  deriving DecidableEq, Repr

export RegMenuTypes (rtFileCrt rtFilePrg rtBin8kHi rtBin8kLo rtBin16k rtNone)

/-- A scalar initializer expression, in the forms the table uses. -/
inductive Init
  /-- An identifier used as a value, such as `rtNone`. -/
  | ident (name : String)
  /-- A string literal, such as `" Hex Mon"`. -/
  | strLit (s : String)
  /-- The null pointer constant `NULL`. -/
  | null
  /-- A cast of an array name to a byte pointer: `(uint8_t*)arr`. -/
  | castArr (arr : String)
  /-- A decimal integer literal, such as `1`. -/
  | intLit (n : Nat)
  /-- The expression `sizeof(arr)`. -/
  | sizeofArr (arr : String)
  deriving DecidableEq, Repr

/-- One line of the initializer list between the braces of `ROMMenu`.
A trailing `//` remark on an active line is not part of the initializer and is
not recorded. -/
inductive SrcLine
  /-- A line of code: the initializers it holds, in order. -/
  | active (inits : List Init)
  /-- A line that starts with `//`: the initializers it would hold. -/
  | commentedOut (inits : List Init)
  deriving DecidableEq, Repr

/-- The value of a data reference: `NULL`, or the address of a named array. -/
inductive DataRef
  | null
  | array (name : String)
  deriving DecidableEq, Repr

/-- The value given for the declared size: a literal, or the size of a named
array. -/
inductive SizeExpr
  | lit (n : Nat)
  | sizeOf (arr : String)
  deriving DecidableEq, Repr

/-- Modelled from the spec: the struct `StructMenuItem`. Its declaration is not
in `MainMenuItems.h`; the spec gives the members as
{kind, label, data reference, declared size}, which is the order in which every
row of the table lists them. -/
structure StructMenuItem where
  kind : RegMenuTypes
  label : String
  data : DataRef
  size : SizeExpr
  deriving DecidableEq, Repr

/-! ## The initializer of `ROMMenu`, line by line -/

/-- The lines between `{` and `};` of `ROMMenu` (blank lines left out). -/
def ROMMenuSource : List SrcLine := [
  .active [.ident "rtNone", .strLit "Utilities------------------", .null, .intLit 1],
  .active [.ident "rtFileCrt", .strLit " Epyx Fast Load Cart", .castArr "Epyx_Fast_Load_crt", .intLit 1],
  .active [.ident "rtFilePrg", .strLit " CCGMS 2021", .castArr "ccgms_2021_prg", .sizeofArr "ccgms_2021_prg"],
  .active [.ident "rtFilePrg", .strLit " 80 Columns", .castArr "a80columns_prg", .sizeofArr "a80columns_prg"],
  .active [.ident "rtFilePrg", .strLit " Hex Mon", .castArr "hex_mon_prg", .sizeofArr "hex_mon_prg"],
  .active [.ident "rtFilePrg", .strLit " DualCopy", .castArr "DualCopy_prg", .sizeofArr "DualCopy_prg"],
  .active [.ident "rtNone", .strLit "", .null, .intLit 1],
  .active [.ident "rtNone", .strLit "MIDI/Games:----------------", .null, .intLit 1],
  .active [.ident "rtFileCrt", .strLit " Cynthcart 2.0.1+Datel MIDI", .castArr "cynthcart_cart_Datel_crt", .intLit 1],
  .commentedOut [.ident "rtFilePrg", .strLit " Cynthcart v2.0.1", .castArr "cynthcart_201_prg", .sizeofArr "cynthcart_201_prg"],
  .active [.ident "rtFilePrg", .strLit " Joust!", .castArr "joust_prg", .sizeofArr "joust_prg"],
  .active [.ident "rtBin8kHi", .strLit " Jupiter Lander", .castArr "Jupiter_Lander_BIN", .intLit 1],
  .commentedOut [.ident "rtBin16k", .strLit " Donkey Kong", .castArr "Donkey_Kong_BIN", .intLit 1],
  .active [.ident "rtNone", .strLit "", .null, .intLit 1],
  .active [.ident "rtNone", .strLit "Test/Diags-----------------", .null, .intLit 1],
  .active [.ident "rtBin8kHi", .strLit " 781220 C64 Dead Test", .castArr "a781220_Dead_Test_BIN", .intLit 1],
  .active [.ident "rtBin8kLo", .strLit " 586220* C64 Diagnostics", .castArr "a586220ast_Diagnostics_BIN", .intLit 1],
  .active [.ident "rtFileCrt", .strLit " 789010 C128 Diagnostics", .castArr "C128_789010_crt", .intLit 1],
  .active [.ident "rtNone", .strLit "Test/Diags (cont)----------", .null, .intLit 1],
  .active [.ident "rtBin8kLo", .strLit " 1541 Diagnostics", .castArr "a1541_Diagnostics_BIN", .intLit 1],
  .active [.ident "rtBin8kLo", .strLit " Keyboard Tester", .castArr "Keyboard_Tester_BIN", .intLit 1],
  .active [.ident "rtBin8kLo", .strLit " SID Tester", .castArr "SID_Tester_BIN", .intLit 1],
  .active [.ident "rtBin8kLo", .strLit " Joystick Tester", .castArr "Joystick_Tester_BIN", .intLit 1],
  .active [.ident "rtFilePrg", .strLit " Game Controller Tester", .castArr "game_controller_tester_prg", .sizeofArr "game_controller_tester_prg"],
  .active [.ident "rtFilePrg", .strLit " ROM Checksum read", .castArr "rom_chksum_137kernals_prg", .sizeofArr "rom_chksum_137kernals_prg"],
  .active [.ident "rtNone", .strLit "", .null, .intLit 1],
  .active [.ident "rtNone", .strLit "My Stuff:------------------", .null, .intLit 1],
  .active [.ident "rtFilePrg", .strLit " Ember Head", .castArr "ember_head_prg", .sizeofArr "ember_head_prg"],
  .active [.ident "rtFilePrg", .strLit " Display Fractal", .castArr "disp_fract_prg", .sizeofArr "disp_fract_prg"],
  .active [.ident "rtFilePrg", .strLit " Draw!", .castArr "draw01_prg", .sizeofArr "draw01_prg"],
  .commentedOut [.ident "rtNone", .strLit "", .null, .intLit 1]
]

/-! ## From the initializer list to the table -/

/-- The flat initializer list that is left once comments are removed: the
initializers of the active lines, in source order. -/
def initializers : List SrcLine → List Init
  | [] => []
  | .active xs :: rest => xs ++ initializers rest
  | .commentedOut _ :: rest => initializers rest

/-- The active lines as rows, in source order. -/
def activeRows : List SrcLine → List (List Init)
  | [] => []
  | .active xs :: rest => xs :: activeRows rest
  | .commentedOut _ :: rest => activeRows rest

/-- The commented-out lines as rows, in source order. -/
def commentedRows : List SrcLine → List (List Init)
  | [] => []
  | .active _ :: rest => commentedRows rest
  | .commentedOut xs :: rest => xs :: commentedRows rest

/-- Brace elision for an array of structs of four members (the members of
`StructMenuItem`): consecutive scalar initializers fill the members of one
element in declaration order, four to an element. A final group may hold fewer
than four initializers (the element it starts is then only partially
initialised). -/
def groupMembers : List Init → List (List Init)
  | a :: b :: c :: d :: rest => [a, b, c, d] :: groupMembers rest
  | [] => []
  | short => [short]

/-- The flat initializer list of `ROMMenu`. -/
def ROMMenuInit : List Init := initializers ROMMenuSource

/-- The groups of initializers of `ROMMenu`, one per array element. -/
def ROMMenuGroups : List (List Init) := groupMembers ROMMenuInit

/-- Modelled from the spec: the value an enumerator name stands for; the
declaration of the enumeration is not in `MainMenuItems.h`. -/
def enumValue (name : String) : Option RegMenuTypes :=
  if name = "rtFileCrt" then some rtFileCrt
  else if name = "rtFilePrg" then some rtFilePrg
  else if name = "rtBin8kHi" then some rtBin8kHi
  else if name = "rtBin8kLo" then some rtBin8kLo
  else if name = "rtBin16k" then some rtBin16k
  else if name = "rtNone" then some rtNone
  else none

/-- The kind member takes an enumerator. -/
def elabKind : Init → Option RegMenuTypes
  | .ident n => enumValue n
  | _ => none

/-- The label member takes a string literal. -/
def elabLabel : Init → Option String
  | .strLit s => some s
  | _ => none

/-- The data reference member takes `NULL` or an array cast to a byte pointer. -/
def elabData : Init → Option DataRef
  | .null => some .null
  | .castArr a => some (.array a)
  | _ => none

/-- The declared size member takes an integer literal or a `sizeof`. -/
def elabSize : Init → Option SizeExpr
  | .intLit n => some (.lit n)
  | .sizeofArr a => some (.sizeOf a)
  | _ => none

/-- Types one group of initializers as a table entry, members in the order
kind, label, data reference, declared size. A group that is not four
initializers of the forms the members take gives no entry. -/
def elabItem : List Init → Option StructMenuItem
  | [k, l, d, s] =>
    match elabKind k, elabLabel l, elabData d, elabSize s with
    | some k, some l, some d, some s => some ⟨k, l, d, s⟩
    | _, _, _, _ => none
  | _ => none

/-- Types every group; fails if one of them fails. -/
def elabItems : List (List Init) → Option (List StructMenuItem)
  | [] => some []
  | g :: gs =>
    match elabItem g, elabItems gs with
    | some e, some es => some (e :: es)
    | _, _ => none

/-- The table `ROMMenu`: the typed entries of the grouped initializer list. -/
def ROMMenu : List StructMenuItem := (elabItems ROMMenuGroups).getD []

/-- The value of a declared size, given the byte size of every embedded array
(the arrays are defined in headers under `ROMs`, outside this file). -/
def SizeExpr.eval (arraySize : String → Nat) : SizeExpr → Nat
  | .lit n => n
  | .sizeOf a => arraySize a

/-- The suffix test on names: `suf` ends `name`. -/
def hasSuffix (name suf : String) : Bool := suf.data.isSuffixOf name.data

/-- The selectable entries: those whose kind is not `rtNone`. -/
def selectable (t : List StructMenuItem) : List StructMenuItem :=
  t.filter (fun e => e.kind ≠ rtNone)

/-- The identifier an enumerator is written with. -/
def RegMenuTypes.enumerator : RegMenuTypes → String
  | .rtFileCrt => "rtFileCrt"
  | .rtFilePrg => "rtFilePrg"
  | .rtBin8kHi => "rtBin8kHi"
  | .rtBin8kLo => "rtBin8kLo"
  | .rtBin16k => "rtBin16k"
  | .rtNone => "rtNone"

/-- The initializer that gives a data reference its value. -/
def DataRef.toInit : DataRef → Init
  | .null => .null
  | .array a => .castArr a

/-- The initializer that gives a declared size its value. -/
def SizeExpr.toInit : SizeExpr → Init
  | .lit n => .intLit n
  | .sizeOf a => .sizeofArr a

/-- The four scalar initializers that give an entry in full, in the field
order kind, label, data reference, declared size. -/
def StructMenuItem.toInits (e : StructMenuItem) : List Init :=
  [.ident e.kind.enumerator, .strLit e.label, e.data.toInit, e.size.toInit]

/-- The row of the table for the Epyx Fast Load cartridge image. -/
def entryEpyx : StructMenuItem :=
  ⟨rtFileCrt, " Epyx Fast Load Cart", .array "Epyx_Fast_Load_crt", .lit 1⟩

/-- The row of the table for the 80 Columns program. -/
def entry80Columns : StructMenuItem :=
  ⟨rtFilePrg, " 80 Columns", .array "a80columns_prg", .sizeOf "a80columns_prg"⟩

/-- The row of the table for the Jupiter Lander ROM image. -/
def entryJupiterLander : StructMenuItem :=
  ⟨rtBin8kHi, " Jupiter Lander", .array "Jupiter_Lander_BIN", .lit 1⟩

/-- The row of the table for the 1541 Diagnostics ROM image. -/
def entry1541Diagnostics : StructMenuItem :=
  ⟨rtBin8kLo, " 1541 Diagnostics", .array "a1541_Diagnostics_BIN", .lit 1⟩

/-- The first heading row of the table. -/
def entryUtilities : StructMenuItem :=
  ⟨rtNone, "Utilities------------------", .null, .lit 1⟩

/-- The failures a load can report. -/
inductive LoadError
  | InvalidImageKind
  | MalformedContainer
  | TruncatedImage
  | SizeMismatch
  | BusTimeout
  deriving DecidableEq, Repr

deriving instance DecidableEq for Except

/-- Modelled from the spec: the classifier, which is not in
`MainMenuItems.h`: it "validates kind against the known enumeration" and
"fails with InvalidImageKind if the tag is unrecognized". The tag of a raw
entry is its first initializer. -/
def classify : List Init → Except LoadError RegMenuTypes
  | tag :: _ =>
    match elabKind tag with
    | some k => .ok k
    | none => .error .InvalidImageKind
  | [] => .error .InvalidImageKind

/-- The declared size of an entry is `sizeof` of the array its data reference
names. -/
def sizeofMatchesData (e : StructMenuItem) : Bool :=
  match e.data, e.size with
  | .array a, .sizeOf b => a == b
  | _, _ => false

/-- The name of the referenced array carries the suffix of the entry's kind,
and of no other kind. -/
def suffixMatchesKind (e : StructMenuItem) : Bool :=
  match e.data with
  | .array a =>
    (decide (e.kind = rtFilePrg) == hasSuffix a "_prg") &&
    (decide (e.kind = rtFileCrt) == hasSuffix a "_crt") &&
    (decide (e.kind = rtBin8kHi ∨ e.kind = rtBin8kLo) == hasSuffix a "_BIN")
  | .null => false

/-! ## Shared facts about the table -/

/-- A data reference that is not `NULL` names an array. -/
theorem DataRef.array_of_ne_null {d : DataRef} (h : d ≠ .null) : ∃ a, d = .array a := by
  cases d with
  | null => exact absurd rfl h
  | array a => exact ⟨a, rfl⟩

/-- A literal declared size has the same value whatever the arrays' sizes. -/
theorem SizeExpr.eval_of_lit {s : SizeExpr} {n : Nat} (h : s = .lit n)
    (arraySize : String → Nat) : s.eval arraySize = n := by
  subst h; rfl

/-- Unfolds the check `sizeofMatchesData`. -/
theorem sizeofMatchesData_spec {e : StructMenuItem} (h : sizeofMatchesData e = true) :
    ∃ a, e.data = .array a ∧ e.size = .sizeOf a := by
  unfold sizeofMatchesData at h
  split at h
  · next a b hd hs => exact ⟨a, hd, by rw [hs, eq_of_beq h]⟩
  · exact absurd h (by decide)

/-- Unfolds the check `suffixMatchesKind`. -/
theorem suffixMatchesKind_spec {e : StructMenuItem} (h : suffixMatchesKind e = true) :
    ∃ a, e.data = .array a ∧
      (e.kind = rtFilePrg ↔ hasSuffix a "_prg" = true) ∧
      (e.kind = rtFileCrt ↔ hasSuffix a "_crt" = true) ∧
      ((e.kind = rtBin8kHi ∨ e.kind = rtBin8kLo) ↔ hasSuffix a "_BIN" = true) := by
  unfold suffixMatchesKind at h
  split at h
  · next a hd =>
    simp only [Bool.and_eq_true, beq_iff_eq] at h
    obtain ⟨⟨h1, h2⟩, h3⟩ := h
    refine ⟨a, hd, ?_, ?_, ?_⟩
    · rw [← h1]; exact decide_eq_true_iff.symm
    · rw [← h2]; exact decide_eq_true_iff.symm
    · rw [← h3]; exact decide_eq_true_iff.symm
  · exact absurd h (by decide)

/-! ## The claims -/

/-- C1: every entry of `ROMMenu` whose kind is not `rtNone` (its kind is then
one of `rtFileCrt`, `rtFilePrg`, `rtBin8kHi`, `rtBin8kLo`) has a data reference
that is not `NULL`: it names an embedded byte array. -/
theorem ROMMenu_selectable_data_nonnull (e : StructMenuItem) (h : e ∈ ROMMenu)
    (hk : e.kind ≠ rtNone) :
    e.kind ∈ [rtFileCrt, rtFilePrg, rtBin8kHi, rtBin8kLo] ∧
      e.data ≠ DataRef.null ∧ ∃ a, e.data = DataRef.array a := by
  have hd : ∀ x ∈ ROMMenu, x.kind ≠ rtNone →
      x.kind ∈ [rtFileCrt, rtFilePrg, rtBin8kHi, rtBin8kLo] ∧ x.data ≠ DataRef.null := by
    decide
  obtain ⟨h1, h2⟩ := hd e h hk
  exact ⟨h1, h2, DataRef.array_of_ne_null h2⟩

/-- The property of C1 at the Epyx Fast Load row. -/
theorem ROMMenu_selectable_data_nonnull_witness :
    entryEpyx ∈ ROMMenu ∧ entryEpyx.kind ≠ rtNone ∧
      (entryEpyx.kind ∈ [rtFileCrt, rtFilePrg, rtBin8kHi, rtBin8kLo] ∧
        entryEpyx.data ≠ DataRef.null ∧ ∃ a, entryEpyx.data = DataRef.array a) :=
  ⟨by decide, by decide,
    ROMMenu_selectable_data_nonnull entryEpyx (by decide) (by decide)⟩

/-- C2: for every entry of `ROMMenu` of kind `rtFilePrg`, the declared size is
`sizeof` of the very array the data reference names, so its value is the byte
size of that array; the table has 10 such entries. -/
theorem ROMMenu_prg_size_is_sizeof_data (e : StructMenuItem) (h : e ∈ ROMMenu)
    (hk : e.kind = rtFilePrg) :
    (∃ a, e.data = DataRef.array a ∧ e.size = SizeExpr.sizeOf a ∧
      ∀ arraySize : String → Nat, e.size.eval arraySize = arraySize a) ∧
    (ROMMenu.filter (fun x => decide (x.kind = rtFilePrg))).length = 10 := by
  have hd : ∀ x ∈ ROMMenu, x.kind = rtFilePrg → sizeofMatchesData x = true := by decide
  obtain ⟨a, h1, h2⟩ := sizeofMatchesData_spec (hd e h hk)
  refine ⟨⟨a, h1, h2, ?_⟩, by decide⟩
  intro arraySize
  rw [h2]
  rfl

/-- The property of C2 at the 80 Columns row. -/
theorem ROMMenu_prg_size_is_sizeof_data_witness :
    entry80Columns ∈ ROMMenu ∧ entry80Columns.kind = rtFilePrg ∧
      ((∃ a, entry80Columns.data = DataRef.array a ∧
          entry80Columns.size = SizeExpr.sizeOf a ∧
          ∀ arraySize : String → Nat, entry80Columns.size.eval arraySize = arraySize a) ∧
        (ROMMenu.filter (fun x => decide (x.kind = rtFilePrg))).length = 10) :=
  ⟨by decide, by decide,
    ROMMenu_prg_size_is_sizeof_data entry80Columns (by decide) (by decide)⟩

/-- C3, as stated, fails: the Jupiter Lander row is in `ROMMenu` with kind
`rtBin8kHi` and declared size 1, so whatever the sizes of the embedded arrays,
it is not the case that every `rtBin8kHi` or `rtBin8kLo` entry has declared
size 8192. -/
theorem ROMMenu_bin8k_size_not_8192 :
    entryJupiterLander ∈ ROMMenu ∧ entryJupiterLander.kind = rtBin8kHi ∧
      entryJupiterLander.size = SizeExpr.lit 1 ∧
      ¬ ∃ arraySize : String → Nat, ∀ e ∈ ROMMenu,
          (e.kind = rtBin8kHi ∨ e.kind = rtBin8kLo) → e.size.eval arraySize = 8192 := by
  refine ⟨by decide, by decide, by decide, ?_⟩
  rintro ⟨arraySize, hall⟩
  have h1 : entryJupiterLander.size.eval arraySize = 8192 :=
    hall entryJupiterLander (by decide) (Or.inl rfl)
  have h2 : entryJupiterLander.size.eval arraySize = 1 := rfl
  rw [h2] at h1
  exact absurd h1 (by decide)

/-- C3, amended: every entry of `ROMMenu` of kind `rtBin8kHi` or `rtBin8kLo`
has the placeholder 1 as its declared size, whatever the sizes of the embedded
arrays; the table does not record the length of such an image. -/
theorem ROMMenu_bin8k_size_placeholder (e : StructMenuItem) (h : e ∈ ROMMenu)
    (hk : e.kind = rtBin8kHi ∨ e.kind = rtBin8kLo) :
    e.size = SizeExpr.lit 1 ∧ ∀ arraySize : String → Nat, e.size.eval arraySize = 1 := by
  have hd : ∀ x ∈ ROMMenu, (x.kind = rtBin8kHi ∨ x.kind = rtBin8kLo) →
      x.size = SizeExpr.lit 1 := by
    decide
  exact ⟨hd e h hk, SizeExpr.eval_of_lit (hd e h hk)⟩

/-- The amended property of C3 at the 1541 Diagnostics row. -/
theorem ROMMenu_bin8k_size_placeholder_witness :
    entry1541Diagnostics ∈ ROMMenu ∧
      (entry1541Diagnostics.kind = rtBin8kHi ∨ entry1541Diagnostics.kind = rtBin8kLo) ∧
      (entry1541Diagnostics.size = SizeExpr.lit 1 ∧
        ∀ arraySize : String → Nat, entry1541Diagnostics.size.eval arraySize = 1) :=
  ⟨by decide, by decide,
    ROMMenu_bin8k_size_placeholder entry1541Diagnostics (by decide) (by decide)⟩

/-- C4: the kind tag of every entry of `ROMMenu` is one of the six enumerators,
so classifying any of the 28 raw entries gives the kind of the typed entry and
never `InvalidImageKind`. -/
theorem ROMMenu_kinds_recognized :
    ROMMenuGroups.length = 28 ∧
    (∀ g ∈ ROMMenuGroups, classify g ≠ Except.error LoadError.InvalidImageKind) ∧
    ROMMenuGroups.map classify = ROMMenu.map (fun e => Except.ok e.kind) ∧
    (∀ e ∈ ROMMenu,
      e.kind ∈ [rtFileCrt, rtFilePrg, rtBin8kHi, rtBin8kLo, rtBin16k, rtNone]) := by
  decide

/-- C5: over the whole of `ROMMenu`, an entry of kind `rtNone` has a `NULL`
data reference, and the data reference is `NULL` exactly when the kind is
`rtNone`. -/
theorem ROMMenu_null_iff_none (e : StructMenuItem) (h : e ∈ ROMMenu) :
    (e.kind = rtNone → e.data = DataRef.null) ∧
      (e.data = DataRef.null ↔ e.kind = rtNone) := by
  have hd : ∀ x ∈ ROMMenu, (x.data = DataRef.null ↔ x.kind = rtNone) := by decide
  exact ⟨(hd e h).mpr, hd e h⟩

/-- The property of C5 at the first heading row. -/
theorem ROMMenu_null_iff_none_witness :
    entryUtilities ∈ ROMMenu ∧
      ((entryUtilities.kind = rtNone → entryUtilities.data = DataRef.null) ∧
        (entryUtilities.data = DataRef.null ↔ entryUtilities.kind = rtNone)) :=
  ⟨by decide, ROMMenu_null_iff_none entryUtilities (by decide)⟩

/-- C6: every entry of `ROMMenu` whose kind is not `rtFilePrg` has the constant
placeholder 1 as its declared size, whatever image it references and whatever
the sizes of the embedded arrays. -/
theorem ROMMenu_nonPrg_size_placeholder (e : StructMenuItem) (h : e ∈ ROMMenu)
    (hk : e.kind ≠ rtFilePrg) :
    e.size = SizeExpr.lit 1 ∧ ∀ arraySize : String → Nat, e.size.eval arraySize = 1 := by
  have hd : ∀ x ∈ ROMMenu, x.kind ≠ rtFilePrg → x.size = SizeExpr.lit 1 := by decide
  exact ⟨hd e h hk, SizeExpr.eval_of_lit (hd e h hk)⟩

/-- The property of C6 at the Epyx Fast Load row. -/
theorem ROMMenu_nonPrg_size_placeholder_witness :
    entryEpyx ∈ ROMMenu ∧ entryEpyx.kind ≠ rtFilePrg ∧
      (entryEpyx.size = SizeExpr.lit 1 ∧
        ∀ arraySize : String → Nat, entryEpyx.size.eval arraySize = 1) :=
  ⟨by decide, by decide,
    ROMMenu_nonPrg_size_placeholder entryEpyx (by decide) (by decide)⟩

/-- C7: the flat initializer of `ROMMenu` has exactly 112 = 4 x 28 scalar
initializers and groups into exactly 28 groups of four, which are the 28 active
source rows in order. The table is the ordered sequence of the 28 entries
listed here, and the initializer is, entry after entry in that order, the four
members (kind, label, data reference, declared size) of each entry in that
field order; no entry is partially initialised, and the 3 commented-out rows
contribute none. -/
theorem ROMMenu_initializer_grouping :
    ROMMenuInit.length = 112 ∧ 112 = 4 * 28 ∧
    ROMMenuGroups.length = 28 ∧
    (∀ g ∈ ROMMenuGroups, g.length = 4) ∧
    ROMMenuGroups = activeRows ROMMenuSource ∧
    elabItems ROMMenuGroups = some ROMMenu ∧
    ROMMenu.length = 28 ∧
    ROMMenuGroups = ROMMenu.map StructMenuItem.toInits ∧
    ROMMenuInit = (ROMMenu.map StructMenuItem.toInits).flatten ∧
    ROMMenu = [
        ⟨rtNone, "Utilities------------------", .null, .lit 1⟩,
        ⟨rtFileCrt, " Epyx Fast Load Cart", .array "Epyx_Fast_Load_crt", .lit 1⟩,
        ⟨rtFilePrg, " CCGMS 2021", .array "ccgms_2021_prg", .sizeOf "ccgms_2021_prg"⟩,
        ⟨rtFilePrg, " 80 Columns", .array "a80columns_prg", .sizeOf "a80columns_prg"⟩,
        ⟨rtFilePrg, " Hex Mon", .array "hex_mon_prg", .sizeOf "hex_mon_prg"⟩,
        ⟨rtFilePrg, " DualCopy", .array "DualCopy_prg", .sizeOf "DualCopy_prg"⟩,
        ⟨rtNone, "", .null, .lit 1⟩,
        ⟨rtNone, "MIDI/Games:----------------", .null, .lit 1⟩,
        ⟨rtFileCrt, " Cynthcart 2.0.1+Datel MIDI", .array "cynthcart_cart_Datel_crt", .lit 1⟩,
        ⟨rtFilePrg, " Joust!", .array "joust_prg", .sizeOf "joust_prg"⟩,
        ⟨rtBin8kHi, " Jupiter Lander", .array "Jupiter_Lander_BIN", .lit 1⟩,
        ⟨rtNone, "", .null, .lit 1⟩,
        ⟨rtNone, "Test/Diags-----------------", .null, .lit 1⟩,
        ⟨rtBin8kHi, " 781220 C64 Dead Test", .array "a781220_Dead_Test_BIN", .lit 1⟩,
        ⟨rtBin8kLo, " 586220* C64 Diagnostics", .array "a586220ast_Diagnostics_BIN", .lit 1⟩,
        ⟨rtFileCrt, " 789010 C128 Diagnostics", .array "C128_789010_crt", .lit 1⟩,
        ⟨rtNone, "Test/Diags (cont)----------", .null, .lit 1⟩,
        ⟨rtBin8kLo, " 1541 Diagnostics", .array "a1541_Diagnostics_BIN", .lit 1⟩,
        ⟨rtBin8kLo, " Keyboard Tester", .array "Keyboard_Tester_BIN", .lit 1⟩,
        ⟨rtBin8kLo, " SID Tester", .array "SID_Tester_BIN", .lit 1⟩,
        ⟨rtBin8kLo, " Joystick Tester", .array "Joystick_Tester_BIN", .lit 1⟩,
        ⟨rtFilePrg, " Game Controller Tester", .array "game_controller_tester_prg",
          .sizeOf "game_controller_tester_prg"⟩,
        ⟨rtFilePrg, " ROM Checksum read", .array "rom_chksum_137kernals_prg",
          .sizeOf "rom_chksum_137kernals_prg"⟩,
        ⟨rtNone, "", .null, .lit 1⟩,
        ⟨rtNone, "My Stuff:------------------", .null, .lit 1⟩,
        ⟨rtFilePrg, " Ember Head", .array "ember_head_prg", .sizeOf "ember_head_prg"⟩,
        ⟨rtFilePrg, " Display Fractal", .array "disp_fract_prg", .sizeOf "disp_fract_prg"⟩,
        ⟨rtFilePrg, " Draw!", .array "draw01_prg", .sizeOf "draw01_prg"⟩] ∧
    ROMMenuSource.length = 31 ∧
    (commentedRows ROMMenuSource).length = 3 ∧
    (∀ e ∈ ROMMenu, e.label ≠ " Cynthcart v2.0.1" ∧ e.label ≠ " Donkey Kong" ∧
      e.data ≠ DataRef.array "cynthcart_201_prg" ∧
      e.data ≠ DataRef.array "Donkey_Kong_BIN" ∧ e.kind ≠ rtBin16k) := by
  decide

/-- C8: for every entry of `ROMMenu` whose kind is not `rtNone`, the name of
the referenced array ends in the suffix of the kind and of no other kind:
`_prg` exactly for `rtFilePrg`, `_crt` exactly for `rtFileCrt`, `_BIN` exactly
for `rtBin8kHi` and `rtBin8kLo`. -/
theorem ROMMenu_kind_matches_suffix (e : StructMenuItem) (h : e ∈ ROMMenu)
    (hk : e.kind ≠ rtNone) :
    ∃ a, e.data = DataRef.array a ∧
      (e.kind = rtFilePrg ↔ hasSuffix a "_prg" = true) ∧
      (e.kind = rtFileCrt ↔ hasSuffix a "_crt" = true) ∧
      ((e.kind = rtBin8kHi ∨ e.kind = rtBin8kLo) ↔ hasSuffix a "_BIN" = true) := by
  have hd : ∀ x ∈ ROMMenu, x.kind ≠ rtNone → suffixMatchesKind x = true := by decide
  exact suffixMatchesKind_spec (hd e h hk)

/-- The property of C8 at the Jupiter Lander row. -/
theorem ROMMenu_kind_matches_suffix_witness :
    entryJupiterLander ∈ ROMMenu ∧ entryJupiterLander.kind ≠ rtNone ∧
      ∃ a, entryJupiterLander.data = DataRef.array a ∧
        (entryJupiterLander.kind = rtFilePrg ↔ hasSuffix a "_prg" = true) ∧
        (entryJupiterLander.kind = rtFileCrt ↔ hasSuffix a "_crt" = true) ∧
        ((entryJupiterLander.kind = rtBin8kHi ∨ entryJupiterLander.kind = rtBin8kLo) ↔
          hasSuffix a "_BIN" = true) :=
  ⟨by decide, by decide,
    ROMMenu_kind_matches_suffix entryJupiterLander (by decide) (by decide)⟩

/-- C9: the 20 entries of `ROMMenu` whose kind is not `rtNone` have pairwise
distinct data references and pairwise distinct labels. -/
theorem ROMMenu_selectable_distinct :
    (selectable ROMMenu).length = 20 ∧
    ((selectable ROMMenu).map (fun e => e.data)).Nodup ∧
    ((selectable ROMMenu).map (fun e => e.label)).Nodup := by
  decide

/-- C10: every label of `ROMMenu` has at most 27 characters, so with its NUL
terminator it fits a field of 28 bytes; the bound is attained by the five
non-empty heading labels of the `rtNone` entries and by the label
" Cynthcart 2.0.1+Datel MIDI", each of exactly 27 characters. -/
theorem ROMMenu_label_lengths :
    (∀ e ∈ ROMMenu, e.label.length ≤ 27 ∧ e.label.utf8ByteSize + 1 ≤ 28) ∧
    (ROMMenu.filter (fun e => decide (e.kind = rtNone ∧ e.label ≠ ""))).map
        (fun e => e.label) =
      ["Utilities------------------", "MIDI/Games:----------------",
       "Test/Diags-----------------", "Test/Diags (cont)----------",
       "My Stuff:------------------"] ∧
    (∀ e ∈ ROMMenu, e.kind = rtNone → e.label ≠ "" → e.label.length = 27) ∧
    (∃ e ∈ ROMMenu, e.label = " Cynthcart 2.0.1+Datel MIDI" ∧ e.label.length = 27) := by
  decide

end TeensyROM
